import Mathlib

/-!
Shallow embedding of the media-library page component
(`src/app/media-library/page.tsx`): the in-memory file/folder collection,
navigation state (current folder, breadcrumb history), selection state,
the filter pipeline, folder creation, the simulated upload flow, and the
URL-parameter initialization walk.

Conventions of the embedding:
* JS `string` becomes `String`; `string | null` becomes `Option String`
  (`none` = `null`); optional fields become `Option` fields.
* `uuidv4()` is modelled as a fresh-id supply `uuidStr n` driven by a
  counter in the state; all that matters is that it yields a `some`
  string id distinct from previously used ids.
* `Date` timestamps become a `Nat` clock field `now` (never inspected by
  the properties below).
* JS truthiness on `string | null | undefined` (`if (x)`) is modelled by
  `strOptTruthy`: `null`/`undefined`/`""` are falsy.
* The router/URL is narrowed to the single `folder` query parameter,
  held in the state as `urlFolderParam` (`params.delete`sets it to
  `none`, `params.set` to `some v`).
* The asynchronous upload (`setTimeout`) is split into a start step that
  captures the closure state (`currentFolderId`, `folderHistory`) into a
  pending record, and a completion step that builds the entries from the
  captured record and prepends them.
* The unguarded `while` loop of `buildFolderPath` is given explicit fuel;
  a `none` result means the loop was still running when the fuel ran out.
-/

/-- A raw uploaded file descriptor: the fields of a JS `File` object the
page reads (`file.name`, `file.type`, `file.size`). -/
structure RawFile where
  name : String
  mimeType : String
  byteSize : Nat
deriving Repr, DecidableEq

/-- The `FileItem` record of the page component. -/
structure FileItem where
  id : String
  name : String
  type : String
  dateModified : Nat
  size : Option String := none
  thumbnailUrl : Option String := none
  description : Option String := none
  parentId : Option String := none
  path : Option String := none
deriving Repr, DecidableEq

/-- One element of `folderHistory`: `{id: string | null, name: string, href?: string}`. -/
structure Crumb where
  id : Option String
  name : String
  href : Option String := none
deriving Repr, DecidableEq

/-- A pending simulated upload: the raw files together with the
`currentFolderId` and `folderHistory` captured by the `setTimeout`
closure at the moment `handleUploadFiles` was called. -/
structure PendingUpload where
  rawFiles : List RawFile
  capturedFolderId : Option String
  capturedHistory : List Crumb
deriving Repr, DecidableEq

/-- The page component's state bag. -/
structure LibState where
  selectedFiles : List String
  currentPage : Nat
  searchQuery : String
  filter : String
  isLoading : Bool
  currentFolderId : Option String
  folderHistory : List Crumb
  selectedFile : Option FileItem
  selectedFolder : Option FileItem
  files : List FileItem
  pendingUploads : List PendingUpload
  urlFolderParam : Option String
  nextUuid : Nat
  now : Nat
deriving Repr, DecidableEq

/-- Model of `uuidv4()`: the `n`-th fresh id drawn from the supply. -/
def uuidStr (n : Nat) : String :=
  "uuid-" ++ toString n

/-- JS truthiness of a `string | null | undefined` value: `null`,
`undefined` and `""` are falsy, every other string is truthy. -/
def strOptTruthy : Option String → Bool
  | none => false
  | some s => !(s == "")

/-- JS `String.prototype.toLowerCase` (the sources only use ASCII names). -/
def lowerStr (s : String) : String :=
  String.mk (s.data.map Char.toLower)

/-- JS `haystack.includes(needle)`: substring containment. -/
def includesB (haystack needle : String) : Bool :=
  decide (needle.toList <:+: haystack.toList)

/-- JS `s.startsWith(p)`. -/
def startsWithB (s p : String) : Bool :=
  p.toList.isPrefixOf s.toList

/-- JS `(bytes / (1024 * 1024)).toFixed(1) + " MB"`, computed with exact
rational rounding to one decimal place (round half away from zero, which
agrees with `toFixed` on the inputs considered here). -/
def toFixed1MB (bytes : Nat) : String :=
  let den := 1024 * 1024
  let num := bytes * 10
  let q := num / den
  let r := num % den
  let tenths := if den ≤ 2 * r then q + 1 else q
  toString (tenths / 10) ++ "." ++ toString (tenths % 10) ++ " MB"

/-- `folderHistory[folderHistory.length - 1].name` (the page only
evaluates this when the history is non-empty). -/
def lastCrumbName (h : List Crumb) : String :=
  ((h.getLast?).map Crumb.name).getD "undefined"

/-- The new folder record built by `handleCreateFolder`. -/
def mkNewFolder (s : LibState) (folderName : String) (desc : Option String) : FileItem :=
  { id := uuidStr s.nextUuid
    name := folderName
    type := "folder"
    dateModified := s.now
    description := desc
    parentId := s.currentFolderId
    path := some (if strOptTruthy s.currentFolderId then
        lastCrumbName s.folderHistory ++ "/" ++ folderName
      else
        "/" ++ folderName) }

/-- `handleCreateFolder`: prepends the new folder to the collection. -/
def handleCreateFolder (s : LibState) (folderName : String) (desc : Option String) : LibState :=
  { s with files := mkNewFolder s folderName desc :: s.files, nextUuid := s.nextUuid + 1 }

/-- The `fileType` classification inside `handleUploadFiles`:
`image/*`, `audio/*`, `video/*` by MIME prefix, else `document`. -/
def uploadFileType (mime : String) : String :=
  if startsWithB mime "image/" then "image"
  else if startsWithB mime "audio/" then "audio"
  else if startsWithB mime "video/" then "video"
  else "document"

/-- The entry built for one uploaded file inside the `setTimeout`
callback of `handleUploadFiles`, from the captured closure state. -/
def buildUploadEntry (capturedFolderId : Option String) (capturedHistory : List Crumb)
    (now : Nat) (uid : Nat) (f : RawFile) : FileItem :=
  let fileType := uploadFileType f.mimeType
  { id := uuidStr uid
    name := f.name
    type := fileType
    size := some (toFixed1MB f.byteSize)
    dateModified := now
    thumbnailUrl := if fileType == "image" then
        some "/placeholder-images/new-image-thumb.jpg"
      else none
    parentId := capturedFolderId
    path := some (if strOptTruthy capturedFolderId then
        lastCrumbName capturedHistory ++ "/" ++ f.name
      else
        "/" ++ f.name) }

/-- The `uploadedFiles.map ...` inside the `setTimeout` callback, with
`uuidv4()` drawing successive ids from the supply. -/
def buildUploadEntries (capturedFolderId : Option String) (capturedHistory : List Crumb)
    (now : Nat) (uid : Nat) : List RawFile → List FileItem
  | [] => []
  | f :: fs =>
      buildUploadEntry capturedFolderId capturedHistory now uid f ::
        buildUploadEntries capturedFolderId capturedHistory now (uid + 1) fs

/-- The synchronous part of `handleUploadFiles`: sets `isLoading` and
schedules the `setTimeout` callback, capturing `currentFolderId` and
`folderHistory` at call time. -/
def handleUploadFilesStart (s : LibState) (uploadedFiles : List RawFile) : LibState :=
  { s with
    isLoading := true
    pendingUploads := s.pendingUploads ++
      [{ rawFiles := uploadedFiles
         capturedFolderId := s.currentFolderId
         capturedHistory := s.folderHistory }] }

/-- The `setTimeout` callback of `handleUploadFiles` firing: builds the
entries from the captured record, prepends them, clears `isLoading`. -/
def handleUploadFilesComplete (s : LibState) : LibState :=
  match s.pendingUploads with
  | [] => s
  | p :: rest =>
      { s with
        files := buildUploadEntries p.capturedFolderId p.capturedHistory s.now s.nextUuid
            p.rawFiles ++ s.files
        isLoading := false
        pendingUploads := rest
        nextUuid := s.nextUuid + p.rawFiles.length }

/-- `handleSelectFile`: adds or removes an id from `selectedFiles`. -/
def handleSelectFile (s : LibState) (id : String) (selected : Bool) : LibState :=
  if selected then
    { s with selectedFiles := s.selectedFiles ++ [id] }
  else
    { s with selectedFiles := s.selectedFiles.filter (fun fileId => fileId != id) }

/-- `handleNavigateToFolder`: no-op when already at the target; for
`null` resets to root; otherwise writes the URL parameter, and only when
the id resolves updates `currentFolderId` and the history (truncating at
the target when called with a `folderName` that is found in the history,
appending otherwise). -/
def handleNavigateToFolder (s : LibState) (folderId : Option String)
    (folderName : Option String) : LibState :=
  if folderId = s.currentFolderId then s
  else
    match folderId with
    | none =>
        { s with
          urlFolderParam := none
          folderHistory := [{ id := none, name := "Root", href := some "/media-library" }]
          currentFolderId := none
          currentPage := 1
          selectedFolder := none }
    | some fid =>
        let s1 := { s with urlFolderParam := some (folderName.getD fid) }
        let s2 :=
          match s1.files.find? (fun file => file.id == fid) with
          | none => s1
          | some folder =>
              let s3 := { s1 with currentFolderId := some fid }
              if strOptTruthy folderName then
                match s3.folderHistory.findIdx? (fun item : Crumb => item.id == some fid) with
                | some index => { s3 with folderHistory := s3.folderHistory.take (index + 1) }
                | none => s3
              else
                { s3 with folderHistory := s3.folderHistory ++ [{ id := some fid, name := folder.name : Crumb }] }
        { s2 with currentPage := 1, selectedFolder := none }

/-- `handleBreadcrumbNavigation`: truncate the history to `[0..index]`,
set `currentFolderId` to the last retained crumb's id, reset the page. -/
def handleBreadcrumbNavigation (s : LibState) (index : Nat) : LibState :=
  let newHistory := s.folderHistory.take (index + 1)
  { s with
    folderHistory := newHistory
    currentFolderId := ((newHistory.getLast?).getD { id := none, name := "undefined" }).id
    currentPage := 1 }

/-- The scope conjunct of the `filteredFiles` predicate:
`file.parentId === currentFolderId`. -/
def inScopeB (currentFolderId : Option String) (file : FileItem) : Bool :=
  file.parentId == currentFolderId

/-- The search conjunct of the `filteredFiles` predicate: empty query
matches everything, else case-insensitive substring match on the name or
on the description when present (an absent description never matches). -/
def matchesSearchB (searchQuery : String) (file : FileItem) : Bool :=
  searchQuery == "" ||
    includesB (lowerStr file.name) (lowerStr searchQuery) ||
    (match file.description with
     | some d => includesB (lowerStr d) (lowerStr searchQuery)
     | none => false)

/-- The type conjunct of the `filteredFiles` predicate: when the filter
is not `"all"`, require an exact `type` match. -/
def matchesTypeB (filter : String) (file : FileItem) : Bool :=
  if filter != "all" then file.type == filter else true

/-- The predicate of the `files.filter` defining `filteredFiles`. -/
def fileMatches (s : LibState) (file : FileItem) : Bool :=
  inScopeB s.currentFolderId file &&
    matchesSearchB s.searchQuery file &&
    matchesTypeB s.filter file

/-- The derived `filteredFiles` view. -/
def filteredFiles (s : LibState) : List FileItem :=
  s.files.filter (fileMatches s)

/-- The three-stage pipeline described by the specification: scope
filter, then search filter, then type filter, in this fixed order. -/
def pipelineVisibleEntries (s : LibState) : List FileItem :=
  ((s.files.filter (inScopeB s.currentFolderId)).filter
      (matchesSearchB s.searchQuery)).filter
    (matchesTypeB s.filter)

/-- The body of the `while (currentFolder)` loop of `buildFolderPath`,
with fuel: `none` means the fuel ran out while the loop was still
running (the source loop is unguarded and would still be iterating). -/
def buildFolderPathLoop (files : List FileItem) :
    Nat → Option FileItem → List Crumb → Option (List Crumb)
  | _, none, folderPath => some folderPath
  | 0, some _, _ => none
  | fuel + 1, some currentFolder, folderPath =>
      let folderPath1 := { id := some currentFolder.id, name := currentFolder.name : Crumb } :: folderPath
      if strOptTruthy currentFolder.parentId then
        buildFolderPathLoop files fuel
          (files.find? (fun f => some f.id == currentFolder.parentId)) folderPath1
      else
        some folderPath1

/-- `buildFolderPath` from the URL-initialization effect: walks the
`parentId` links upward and prefixes the root crumb. -/
def buildFolderPath (files : List FileItem) (fuel : Nat) (folderId : String) :
    Option (List Crumb) :=
  (buildFolderPathLoop files fuel (files.find? (fun f => f.id == folderId)) []).map
    (fun folderPath => { id := none, name := "Root" : Crumb } :: folderPath)

/-- The URL-initialization effect: reads the `folder` parameter, resolves
it in `files`, and only when the resolved entry's `type` is `"folder"`
sets `currentFolderId` and rebuilds the history via `buildFolderPath`.
`none` means the rebuild walk did not terminate within the fuel. -/
def initFolderFromUrl (s : LibState) (fuel : Nat) : Option LibState :=
  match s.urlFolderParam with
  | none => some s
  | some folderIdFromUrl =>
      match s.files.find? (fun file => file.id == folderIdFromUrl) with
      | some folder =>
          if folder.type == "folder" then
            (buildFolderPath s.files fuel folderIdFromUrl).map (fun hist =>
              { s with currentFolderId := some folderIdFromUrl, folderHistory := hist })
          else some s
      | none => some s

/-- The initial `folderHistory` of the component:
`[{ id: uuidv4(), name: 'Root', href: '/media-library' }]` — note the
root crumb's id is a fresh uuid, not `null`. -/
def initialFolderHistory : List Crumb :=
  [{ id := some (uuidStr 0), name := "Root", href := some "/media-library" }]

/-- The component's initial state, parameterized by the (randomized)
sample dataset `fs` produced by `generateSampleFiles`. -/
def initState (fs : List FileItem) : LibState :=
  { selectedFiles := []
    currentPage := 1
    searchQuery := ""
    filter := "all"
    isLoading := false
    currentFolderId := none
    folderHistory := initialFolderHistory
    selectedFile := none
    selectedFolder := none
    files := fs
    pendingUploads := []
    urlFolderParam := none
    nextUuid := 1
    now := 0 }

/-- The breadcrumb invariant stated by the specification: the history is
non-empty, its last element's id equals `currentFolderId`, and its first
element represents root with id `null`. -/
def histInvariant (s : LibState) : Prop :=
  s.folderHistory ≠ [] ∧
    (s.folderHistory.getLast?).map Crumb.id = some s.currentFolderId ∧
    (s.folderHistory.head?).map Crumb.id = some none

/-- The root crumb written by `handleNavigateToFolder` on navigation to
root. -/
def rootCrumb : Crumb :=
  { id := none, name := "Root", href := some "/media-library" }

/-- Concrete fixture: the `Cakes` root folder of the sample dataset. -/
def cakesFolder : FileItem :=
  { id := "1", name := "Cakes", type := "folder", dateModified := 10
    parentId := none, path := some "/Cakes"
    description := some "Collection of cake photos for the bakery website" }

/-- Concrete fixture: the `Desserts` root folder of the sample dataset. -/
def dessertsFolder : FileItem :=
  { id := "2", name := "Desserts", type := "folder", dateModified := 11
    parentId := none, path := some "/Desserts"
    description := some "Various dessert images for menu cards" }

/-- Concrete fixture: an image file inside the `Cakes` folder. -/
def cakePhoto : FileItem :=
  { id := "10", name := "cake-photo-1.jpg", type := "image", dateModified := 12
    size := some "1.2 MB", thumbnailUrl := some "/placeholder-images/cake-1.jpg"
    parentId := some "1", path := some "/Cakes/cake-photo-1.jpg" }

/-- Concrete fixture: a small collection of entries. -/
def sampleFiles : List FileItem :=
  [cakesFolder, dessertsFolder, cakePhoto]

/-- Concrete fixture: a state at root with the canonical root history. -/
def sampleState : LibState :=
  { selectedFiles := []
    currentPage := 1
    searchQuery := ""
    filter := "all"
    isLoading := false
    currentFolderId := none
    folderHistory := [rootCrumb]
    selectedFile := none
    selectedFolder := none
    files := sampleFiles
    pendingUploads := []
    urlFolderParam := none
    nextUuid := 100
    now := 50 }

/-- Concrete fixture: a state currently inside the `Desserts` folder. -/
def nestedState : LibState :=
  { sampleState with
    currentFolderId := some "2"
    folderHistory := [rootCrumb, { id := some "2", name := "Desserts" }] }

/-- Concrete fixture: the raw upload of the spec's ingestion scenario. -/
def xPngRaw : RawFile :=
  { name := "x.png", mimeType := "image/png", byteSize := 2000000 }

/-- Concrete fixture: a state with one pending upload captured inside
the `Cakes` folder. -/
def pendingState : LibState :=
  { sampleState with
    currentFolderId := some "1"
    folderHistory := [rootCrumb, { id := some "1", name := "Cakes" }]
    isLoading := true
    pendingUploads :=
      [{ rawFiles := [xPngRaw]
         capturedFolderId := some "1"
         capturedHistory := [rootCrumb, { id := some "1", name := "Cakes" }] }] }

/-- Concrete fixture: malformed folder whose parent is `cycB`. -/
def cycA : FileItem :=
  { id := "A", name := "FolderA", type := "folder", dateModified := 0, parentId := some "B" }

/-- Concrete fixture: malformed folder whose parent is `cycA`. -/
def cycB : FileItem :=
  { id := "B", name := "FolderB", type := "folder", dateModified := 0, parentId := some "A" }

/-- Concrete fixture: malformed data whose ancestor chain is a cycle
(`A`'s parent is `B`, `B`'s parent is `A`). -/
def cyclicFiles : List FileItem :=
  [cycA, cycB]

/-- Every entry built by the upload callback carries the captured folder
id as its `parentId`. -/
theorem buildUploadEntries_parentId (capId : Option String) (capHist : List Crumb)
    (now : Nat) (fs : List RawFile) :
    ∀ (uid : Nat) (e : FileItem),
      e ∈ buildUploadEntries capId capHist now uid fs → e.parentId = capId := by
  induction fs with
  | nil => intro uid e he; simp [buildUploadEntries] at he
  | cons f fs ih =>
      intro uid e he
      simp only [buildUploadEntries, List.mem_cons] at he
      rcases he with he | he
      · rw [he]; rfl
      · exact ih (uid + 1) e he

/-- C2: in the component's initial state the breadcrumb invariant of the
specification fails — the initial root crumb's id is a fresh uuid, so it
is neither `null` nor equal to the initial `currentFolderId` (which is
`null`), whatever the sample dataset is. -/
theorem initialState_breaks_history_invariant (fs : List FileItem) :
    ¬ histInvariant (initState fs) := by
  intro h
  have h2 := h.2.1
  simp [initState, initialFolderHistory, uuidStr] at h2

/-- C7: on the cyclic fixture, the `while` loop of `buildFolderPath`
never terminates: whatever fuel it is given, the walk is still running
when the fuel runs out. -/
theorem buildFolderPath_cyclic_never_terminates (fuel : Nat) :
    buildFolderPath cyclicFiles fuel "A" = none := by
  have hA : cyclicFiles.find? (fun f => f.id == "A") = some cycA := rfl
  have hStepA : cyclicFiles.find? (fun f => some f.id == cycA.parentId) = some cycB := rfl
  have hStepB : cyclicFiles.find? (fun f => some f.id == cycB.parentId) = some cycA := rfl
  have key : ∀ (n : Nat) (acc : List Crumb),
      buildFolderPathLoop cyclicFiles n (some cycA) acc = none ∧
      buildFolderPathLoop cyclicFiles n (some cycB) acc = none := by
    intro n
    induction n with
    | zero => intro acc; exact ⟨rfl, rfl⟩
    | succ n ih =>
        intro acc
        constructor
        · show buildFolderPathLoop cyclicFiles (n + 1) (some cycA) acc = none
          simp only [buildFolderPathLoop]
          rw [if_pos (by rfl), hStepA]
          exact (ih _).2
        · show buildFolderPathLoop cyclicFiles (n + 1) (some cycB) acc = none
          simp only [buildFolderPathLoop]
          rw [if_pos (by rfl), hStepB]
          exact (ih _).1
  unfold buildFolderPath
  rw [hA, (key fuel []).1]
  rfl

/-- C9: neither `handleNavigateToFolder` nor
`handleBreadcrumbNavigation` touches the selection state: the selected
ids after any navigation equal the selected ids before. -/
theorem navigation_preserves_selection (s : LibState)
    (folderId folderName : Option String) (index : Nat) :
    (handleNavigateToFolder s folderId folderName).selectedFiles = s.selectedFiles ∧
    (handleBreadcrumbNavigation s index).selectedFiles = s.selectedFiles := by
  constructor
  · unfold handleNavigateToFolder
    split
    · rfl
    · split
      · rfl
      · dsimp only
        split
        · rfl
        · split
          · split <;> rfl
          · rfl
  · rfl

/-- C1: the derived `filteredFiles` view equals the three-stage pipeline
(scope filter, then search filter, then type filter, in this order), it
preserves the insertion order of the underlying collection (it is a
sublist of `files`), and it never contains an entry whose `parentId`
differs from `currentFolderId`. -/
theorem visibleEntries_pipeline (s : LibState) :
    filteredFiles s = pipelineVisibleEntries s ∧
    List.Sublist (filteredFiles s) s.files ∧
    ∀ e, e ∈ filteredFiles s → e.parentId = s.currentFolderId := by
  refine ⟨?_, List.filter_sublist _, ?_⟩
  · unfold filteredFiles pipelineVisibleEntries
    rw [List.filter_filter, List.filter_filter]
    apply List.filter_congr
    intro a _
    unfold fileMatches
    cases inScopeB s.currentFolderId a <;>
      cases matchesSearchB s.searchQuery a <;>
        cases matchesTypeB s.filter a <;> rfl
  · intro e he
    rw [filteredFiles, List.mem_filter] at he
    have h := he.2
    simp only [fileMatches, Bool.and_eq_true] at h
    have h1 : inScopeB s.currentFolderId e = true := h.1.1
    simpa [inScopeB] using h1

/-- C1 witness: at the sample root state the pipeline identity holds and
a concrete member of the view has the current folder as parent. -/
theorem visibleEntries_pipeline_witness :
    filteredFiles sampleState = pipelineVisibleEntries sampleState ∧
    cakesFolder.parentId = sampleState.currentFolderId :=
  ⟨(visibleEntries_pipeline sampleState).1,
    (visibleEntries_pipeline sampleState).2.2 cakesFolder (by decide)⟩

/-- C3 counterexample: ingesting `x.png` (`image/png`, 2,000,000 bytes)
yields `size = "1.9 MB"` — the code divides by `1024 * 1024`, not by
`1e6`, so the claimed `"2.0 MB"` is wrong at this exact input. -/
theorem ingest_xpng_size_is_one_point_nine :
    ((handleUploadFilesComplete (handleUploadFilesStart sampleState [xPngRaw])).files.head?.map
        FileItem.size) = some (some "1.9 MB") ∧
      ("1.9 MB" : String) ≠ "2.0 MB" := by
  constructor
  · rfl
  · decide

/-- C3 amended: the ingestion scenario produces exactly one new entry,
with kind `image` (by the MIME-prefix classification), size `"1.9 MB"`
(`bytes / 2^20` rendered with one decimal place and the suffix `" MB"`),
and a non-empty `thumbnailUrl`; and for every ingested file a
`thumbnailUrl` is assigned if and only if its kind is `image`. -/
theorem ingest_xpng_amended :
    (handleUploadFilesComplete (handleUploadFilesStart sampleState [xPngRaw])).files =
      buildUploadEntry none [rootCrumb] sampleState.now sampleState.nextUuid xPngRaw ::
        sampleState.files ∧
    (buildUploadEntry none [rootCrumb] 50 100 xPngRaw).type = "image" ∧
    (buildUploadEntry none [rootCrumb] 50 100 xPngRaw).size = some "1.9 MB" ∧
    (buildUploadEntry none [rootCrumb] 50 100 xPngRaw).thumbnailUrl =
      some "/placeholder-images/new-image-thumb.jpg" ∧
    ∀ (capId : Option String) (capHist : List Crumb) (now uid : Nat) (f : RawFile),
      ((buildUploadEntry capId capHist now uid f).thumbnailUrl ≠ none ↔
        (buildUploadEntry capId capHist now uid f).type = "image") ∧
      (buildUploadEntry capId capHist now uid f).type = uploadFileType f.mimeType := by
  refine ⟨by decide, by decide, by decide, by decide, ?_⟩
  intro capId capHist now uid f
  refine ⟨?_, rfl⟩
  simp only [buildUploadEntry]
  cases h : uploadFileType f.mimeType == "image"
  · simp only [h, if_neg Bool.false_ne_true]
    constructor
    · intro hne; exact absurd rfl hne
    · intro heq
      exact absurd heq (by simpa using h)
  · simp only [h, if_pos rfl]
    constructor
    · intro _; exact eq_of_beq h
    · intro _; simp

/-- C4: `handleCreateFolder` prepends one folder whose `parentId` is the
`currentFolderId` at the call; `handleUploadFiles` captures the
`currentFolderId` at call start into the pending record; and when the
callback completes, the entries it prepends all carry the captured
folder id — the value at call start, not at completion. -/
theorem produced_entries_parent_and_head (s : LibState) (folderName : String)
    (desc : Option String) (rf : List RawFile) (p : PendingUpload)
    (rest : List PendingUpload) (hp : s.pendingUploads = p :: rest) :
    ((handleCreateFolder s folderName desc).files =
        mkNewFolder s folderName desc :: s.files ∧
      (mkNewFolder s folderName desc).parentId = s.currentFolderId) ∧
    (handleUploadFilesStart s rf).pendingUploads = s.pendingUploads ++
      [{ rawFiles := rf, capturedFolderId := s.currentFolderId,
         capturedHistory := s.folderHistory }] ∧
    (handleUploadFilesComplete s).files =
      buildUploadEntries p.capturedFolderId p.capturedHistory s.now s.nextUuid
        p.rawFiles ++ s.files ∧
    ∀ e ∈ buildUploadEntries p.capturedFolderId p.capturedHistory s.now s.nextUuid
        p.rawFiles, e.parentId = p.capturedFolderId := by
  refine ⟨⟨rfl, rfl⟩, rfl, ?_, ?_⟩
  · unfold handleUploadFilesComplete
    rw [hp]
  · intro e he
    exact buildUploadEntries_parentId p.capturedFolderId p.capturedHistory s.now
      p.rawFiles s.nextUuid e he

/-- C4 witness: completing the concrete pending upload of `pendingState`
prepends the entries built from the captured folder id `"1"`. -/
theorem produced_entries_parent_and_head_witness :
    (handleUploadFilesComplete pendingState).files =
      buildUploadEntries (some "1") [rootCrumb, { id := some "1", name := "Cakes" }]
        50 100 [xPngRaw] ++ pendingState.files :=
  (produced_entries_parent_and_head pendingState "New" none [xPngRaw]
    { rawFiles := [xPngRaw], capturedFolderId := some "1",
      capturedHistory := [rootCrumb, { id := some "1", name := "Cakes" }] }
    [] rfl).2.2.1

/-- C5 counterexample: navigating to the unresolved id `"ghost"` from
the sample state leaves `folderHistory` exactly as it was (the history
update sits inside the `if (folder)` branch), refuting the claim that
the folder history is still updated; only the URL parameter changes. -/
theorem navigate_ghost_keeps_history :
    (handleNavigateToFolder sampleState (some "ghost") none).folderHistory =
      sampleState.folderHistory ∧
    sampleState.files.find? (fun file => file.id == "ghost") = none := by
  constructor
  · rfl
  · rfl

/-- C5 amended: for an unresolved `folderId`, `handleNavigateToFolder`
raises no error and leaves `currentFolderId`, `folderHistory`, the
collection, and the displayed contents unchanged; it still writes the
URL's folder parameter and resets the page to 1 — but it does not
update the folder history. -/
theorem navigate_missing_folder (s : LibState) (fid : String)
    (hne : some fid ≠ s.currentFolderId)
    (hmiss : s.files.find? (fun file => file.id == fid) = none) :
    (handleNavigateToFolder s (some fid) none).folderHistory = s.folderHistory ∧
    (handleNavigateToFolder s (some fid) none).currentFolderId = s.currentFolderId ∧
    (handleNavigateToFolder s (some fid) none).files = s.files ∧
    filteredFiles (handleNavigateToFolder s (some fid) none) = filteredFiles s ∧
    (handleNavigateToFolder s (some fid) none).urlFolderParam = some fid ∧
    (handleNavigateToFolder s (some fid) none).currentPage = 1 := by
  have hs : handleNavigateToFolder s (some fid) none =
      { s with urlFolderParam := some fid, currentPage := 1, selectedFolder := none } := by
    unfold handleNavigateToFolder
    rw [if_neg hne]
    dsimp only [Option.getD]
    rw [hmiss]
  rw [hs]
  exact ⟨rfl, rfl, rfl, rfl, rfl, rfl⟩

/-- C5 witness: the amended behavior at the concrete unresolved id
`"ghost"` from the sample state. -/
theorem navigate_missing_folder_witness :
    (handleNavigateToFolder sampleState (some "ghost") none).currentFolderId =
      sampleState.currentFolderId ∧
    (handleNavigateToFolder sampleState (some "ghost") none).urlFolderParam =
      some "ghost" :=
  ⟨(navigate_missing_folder sampleState "ghost" (by decide) rfl).2.1,
   (navigate_missing_folder sampleState "ghost" (by decide) rfl).2.2.2.2.1⟩

/-- C6 counterexample: starting inside the `Desserts` folder, the
sequence navigate-to-Cakes, navigate-to-root, navigate-to-Cakes ends
with history `[Root, Cakes]`, while the first call alone produced
`[Root, Desserts, Cakes]` — the round trip does not reproduce it. -/
theorem round_trip_history_differs :
    (handleNavigateToFolder
        (handleNavigateToFolder
          (handleNavigateToFolder nestedState (some "1") none) none none)
        (some "1") none).folderHistory ≠
      (handleNavigateToFolder nestedState (some "1") none).folderHistory := by
  decide

/-- C6 amended: the round trip `navigateTo(X)`, `navigateTo(null)`,
`navigateTo(X)` reproduces the history of the first call when the
starting state is at root with the canonical root history and `X`
resolves in the collection. -/
theorem navigate_round_trip_from_root (s : LibState) (x : String) (f : FileItem)
    (hcur : s.currentFolderId = none)
    (hhist : s.folderHistory = [rootCrumb])
    (hfind : s.files.find? (fun file => file.id == x) = some f) :
    (handleNavigateToFolder
        (handleNavigateToFolder
          (handleNavigateToFolder s (some x) none) none none)
        (some x) none).folderHistory =
      (handleNavigateToFolder s (some x) none).folderHistory := by
  have h1 : handleNavigateToFolder s (some x) none =
      { s with
        urlFolderParam := some x
        currentFolderId := some x
        folderHistory := s.folderHistory ++ [{ id := some x, name := f.name }]
        currentPage := 1
        selectedFolder := none } := by
    unfold handleNavigateToFolder
    rw [if_neg (by rw [hcur]; exact fun h => Option.noConfusion h)]
    dsimp only [Option.getD]
    rw [hfind]
    rfl
  rw [h1]
  have h2 : handleNavigateToFolder
      { s with
        urlFolderParam := some x
        currentFolderId := some x
        folderHistory := s.folderHistory ++ [{ id := some x, name := f.name }]
        currentPage := 1
        selectedFolder := none } none none =
      { s with
        urlFolderParam := none
        currentFolderId := none
        folderHistory := [rootCrumb]
        currentPage := 1
        selectedFolder := none } := by
    unfold handleNavigateToFolder
    rw [if_neg (by exact fun h => Option.noConfusion h)]
    rfl
  rw [h2]
  have h3 : handleNavigateToFolder
      { s with
        urlFolderParam := none
        currentFolderId := none
        folderHistory := [rootCrumb]
        currentPage := 1
        selectedFolder := none } (some x) none =
      { s with
        urlFolderParam := some x
        currentFolderId := some x
        folderHistory := [rootCrumb] ++ [{ id := some x, name := f.name }]
        currentPage := 1
        selectedFolder := none } := by
    unfold handleNavigateToFolder
    rw [if_neg (by exact fun h => Option.noConfusion h)]
    dsimp only [Option.getD]
    rw [hfind]
    rfl
  rw [h3]
  rw [hhist]

/-- C6 witness: the amended round trip at the sample root state with
`X` the `Cakes` folder. -/
theorem navigate_round_trip_from_root_witness :
    (handleNavigateToFolder
        (handleNavigateToFolder
          (handleNavigateToFolder sampleState (some "1") none) none none)
        (some "1") none).folderHistory =
      (handleNavigateToFolder sampleState (some "1") none).folderHistory :=
  navigate_round_trip_from_root sampleState "1" cakesFolder rfl rfl (by decide)

/-- C8: for an in-range index, breadcrumb navigation truncates the
history to the prefix `[0..i]` (exactly `i + 1` elements), the last
retained crumb's id becomes the new `currentFolderId`, and the page is
reset to 1. -/
theorem breadcrumb_navigation_truncates (s : LibState) (i : Nat)
    (hi : i < s.folderHistory.length) :
    (handleBreadcrumbNavigation s i).folderHistory = s.folderHistory.take (i + 1) ∧
    (handleBreadcrumbNavigation s i).folderHistory.length = i + 1 ∧
    ((handleBreadcrumbNavigation s i).folderHistory.getLast?).map Crumb.id =
      some (handleBreadcrumbNavigation s i).currentFolderId ∧
    (handleBreadcrumbNavigation s i).currentPage = 1 := by
  refine ⟨rfl, ?_, ?_, rfl⟩
  · show (s.folderHistory.take (i + 1)).length = i + 1
    rw [List.length_take]
    exact Nat.min_eq_left (by omega)
  · have hne : s.folderHistory.take (i + 1) ≠ [] := by
      intro hnil
      have hlen := congrArg List.length hnil
      rw [List.length_take, List.length_nil] at hlen
      have := Nat.min_eq_left (show i + 1 ≤ s.folderHistory.length by omega)
      omega
    rcases h : (s.folderHistory.take (i + 1)).getLast? with _ | c
    · exact absurd (List.getLast?_eq_none_iff.mp h) hne
    · show ((s.folderHistory.take (i + 1)).getLast?).map Crumb.id = _
      rw [h]
      show some c.id = some ((handleBreadcrumbNavigation s i).currentFolderId)
      unfold handleBreadcrumbNavigation
      dsimp only
      rw [h]
      rfl

/-- C8 witness: breadcrumb navigation to index 0 from the nested state
yields a one-element history ending at the new current folder. -/
theorem breadcrumb_navigation_truncates_witness :
    (handleBreadcrumbNavigation nestedState 0).folderHistory.length = 0 + 1 ∧
    (handleBreadcrumbNavigation nestedState 0).currentPage = 1 :=
  ⟨(breadcrumb_navigation_truncates nestedState 0 (by decide)).2.1,
   (breadcrumb_navigation_truncates nestedState 0 (by decide)).2.2.2⟩

/-- C10: `handleNavigateToFolder` performs no kind check: any entry
found by id — of any kind — becomes the current folder and is appended
to the history; by contrast the URL-initialization effect leaves the
state unchanged whenever the resolved entry's kind is not `folder`, and
accepts it (setting `currentFolderId`) when it is. -/
theorem navigate_unchecked_vs_url_init_checked (s : LibState) (e : FileItem)
    (hfind : s.files.find? (fun file => file.id == e.id) = some e)
    (hne : some e.id ≠ s.currentFolderId) :
    ((handleNavigateToFolder s (some e.id) none).currentFolderId = some e.id ∧
      (handleNavigateToFolder s (some e.id) none).folderHistory =
        s.folderHistory ++ [{ id := some e.id, name := e.name }]) ∧
    (∀ (u : LibState) (fuel : Nat) (fid : String) (g : FileItem),
      u.urlFolderParam = some fid →
      u.files.find? (fun file => file.id == fid) = some g →
      g.type ≠ "folder" →
      initFolderFromUrl u fuel = some u) ∧
    (∀ (u : LibState) (fuel : Nat) (fid : String) (g : FileItem)
        (hist : List Crumb),
      u.urlFolderParam = some fid →
      u.files.find? (fun file => file.id == fid) = some g →
      g.type = "folder" →
      buildFolderPath u.files fuel fid = some hist →
      initFolderFromUrl u fuel =
        some { u with currentFolderId := some fid, folderHistory := hist }) := by
  refine ⟨?_, ?_, ?_⟩
  · have hs : handleNavigateToFolder s (some e.id) none =
        { s with
          urlFolderParam := some e.id
          currentFolderId := some e.id
          folderHistory := s.folderHistory ++ [{ id := some e.id, name := e.name }]
          currentPage := 1
          selectedFolder := none } := by
      unfold handleNavigateToFolder
      rw [if_neg hne]
      dsimp only [Option.getD]
      rw [hfind]
      rfl
    rw [hs]
    exact ⟨rfl, rfl⟩
  · intro u fuel fid g hu hfindg hg
    unfold initFolderFromUrl
    rw [hu]
    dsimp only
    rw [hfindg]
    dsimp only
    rw [if_neg (by simpa using hg)]
  · intro u fuel fid g hist hu hfindg hg hpath
    unfold initFolderFromUrl
    rw [hu]
    dsimp only
    rw [hfindg]
    dsimp only
    rw [if_pos (by simpa using hg), hpath]
    rfl

/-- C10 witness: navigating to the image entry `cake-photo-1.jpg` (not a
folder) makes it the current folder, while URL initialization with that
same id leaves the state unchanged. -/
theorem navigate_unchecked_vs_url_init_checked_witness :
    (handleNavigateToFolder sampleState (some "10") none).currentFolderId =
      some "10" ∧
    initFolderFromUrl { sampleState with urlFolderParam := some "10" } 5 =
      some { sampleState with urlFolderParam := some "10" } :=
  ⟨(navigate_unchecked_vs_url_init_checked sampleState cakePhoto (by decide)
      (by decide)).1.1,
   (navigate_unchecked_vs_url_init_checked sampleState cakePhoto (by decide)
      (by decide)).2.1 { sampleState with urlFolderParam := some "10" } 5 "10"
      cakePhoto rfl (by decide) (by decide)⟩
